import Mathlib

/-!
Verification of the task-planning / agent-management system.

The development shallowly embeds:
* `SpecModel` — the Plan Store and Dependency Resolver of the backend engine
  (spec §4.1–§4.3); the backend implementation itself is not present in the
  repository snapshot (only its README and build manifest are), so these
  definitions are modelled from the spec's words.
* `V1` — the first `useAgentManager` hook variant (frontend-v2/hooks/useAgentManager.ts,
  first document: `createAgent`, `updateAgentStatus`, `executeAgent`, `completeAgent`,
  status enum from types/agent.ts).
* `V2` — the second `useAgentManager` hook variant (same file, second document:
  hierarchical agents with `level` and string statuses "todo"/"doing"/...).
* `V3` — the template-based `useAgentManager` variant (`createAgent` with `template_id`).
* `DataUnits` — the `DataUnitManager` class (default and custom data units).

Dates (`new Date()`) are modelled as natural-number timestamps supplied by the
caller; `generateAgentId` results are likewise supplied as explicit arguments.
-/

namespace SpecModel

/-- Task status, spec §4.2. -/
inductive TaskStatus where
  | pending
  | ready
  | running
  | completed
  | failed
  | blocked
deriving DecidableEq

/-- Task category, spec §3: actionable vs information-reference. -/
inductive TaskCategory where
  | actionable
  | info_reference
deriving DecidableEq

/-- Modelled from the spec: the Task record of §3 (id, agent_type, description,
dependencies, category, status, result, error, timestamps, tags).  The field
`retry_pending` models "`failed` with no pending retry" of §4.3: whether a retry
request is pending for a failed task. -/
structure Task where
  id : String
  agent_type : String
  description : String
  dependencies : List String
  category : TaskCategory
  status : TaskStatus
  result : Option String
  error : Option String
  retry_pending : Bool
  tags : List String
  created_at : Nat
  updated_at : Nat
deriving DecidableEq

/-- Look a task up by id in a plan's task list. -/
def findTask (ts : List Task) (i : String) : Option Task :=
  ts.find? (fun u => decide (u.id = i))

/-- Whether the id `d` names a task of status `completed` in `ts`. -/
def depCompleted (ts : List Task) (d : String) : Bool :=
  match findTask ts d with
  | some u => decide (u.status = TaskStatus.completed)
  | none => false

/-- Spec §4.3: "every id in its `dependencies` set has status `completed`". -/
def allDepsCompleted (ts : List Task) (t : Task) : Bool :=
  t.dependencies.all (depCompleted ts)

/-- A task that is `failed` with no pending retry (spec §4.3). -/
def failedNoRetry (u : Task) : Bool :=
  decide (u.status = TaskStatus.failed) && !u.retry_pending

/-- Modelled from the spec: "at least one dependency (transitively) is `failed`
with no pending retry" (§4.3), as a fuel-bounded walk over dependency edges;
fuel `ts.length` suffices on the acyclic graphs the spec's invariants demand. -/
def transFailedDep (ts : List Task) : Nat → Task → Bool
  | 0, _ => false
  | n + 1, t =>
    t.dependencies.any (fun d =>
      match findTask ts d with
      | some u => failedNoRetry u || transFailedDep ts n u
      | none => false)

/-- Modelled from the spec: one Dependency Resolver step on a single task
(§4.3): a `pending` task becomes `ready` iff every dependency is `completed`,
becomes `blocked` iff some transitive dependency is `failed` with no pending
retry; non-`pending` tasks are untouched. -/
def resolveTask (ts : List Task) (t : Task) : Task :=
  if t.status = TaskStatus.pending then
    if allDepsCompleted ts t then { t with status := TaskStatus.ready }
    else if transFailedDep ts ts.length t then { t with status := TaskStatus.blocked }
    else t
  else t

/-- Modelled from the spec: one pass of the Dependency Resolver over the whole
task set (§4.3, "a single pass over the task set per invocation"). -/
def resolvePass (ts : List Task) : List Task :=
  ts.map (resolveTask ts)

/-- Sanity invariant of reachable plans: a `completed` task's dependencies are
all `completed` (a task only completes after its prerequisites did, §4.2). -/
def completedClosedB (ts : List Task) : Bool :=
  ts.all (fun u => !(decide (u.status = TaskStatus.completed)) || allDepsCompleted ts u)

/-- Modelled from the spec: the Plan record of §3 — an ordered collection of
tasks plus `created_at`/`updated_at`. -/
structure Plan where
  tasks : List Task
  created_at : Nat
  updated_at : Nat
deriving DecidableEq

/-- A status/result/error mutation as accepted by `updateTask` (spec §4.1). -/
structure TaskPatch where
  status : Option TaskStatus
  result : Option String
  error : Option String
deriving DecidableEq

/-- Error kinds of the Plan Store relevant to `updateTask` (spec §7). -/
inductive StoreErr where
  | notFound
  | invalidTransition
deriving DecidableEq

/-- The permitted status transitions, spec §4.2: `pending → ready`,
`ready → running`, `running → completed`, `running → failed`,
`failed → pending`, `pending|ready → blocked`; no other transition is
permitted. -/
def allowedTransition : TaskStatus → TaskStatus → Bool
  | TaskStatus.pending, TaskStatus.ready => true
  | TaskStatus.ready, TaskStatus.running => true
  | TaskStatus.running, TaskStatus.completed => true
  | TaskStatus.running, TaskStatus.failed => true
  | TaskStatus.failed, TaskStatus.pending => true
  | TaskStatus.pending, TaskStatus.blocked => true
  | TaskStatus.ready, TaskStatus.blocked => true
  | _, _ => false

/-- Apply a patch to the affected task, stamping its `updated_at`. -/
def applyPatch (now : Nat) (patch : TaskPatch) (u : Task) : Task :=
  { u with
    status := patch.status.getD u.status
    result := match patch.result with
      | some r => some r
      | none => u.result
    error := match patch.error with
      | some e => some e
      | none => u.error
    updated_at := now }

/-- Whether the patch's requested status change (if any) is an allowed
transition from the task's current status. -/
def patchAllowed (t : Task) (patch : TaskPatch) : Bool :=
  match patch.status with
  | some s => allowedTransition t.status s
  | none => true

/-- Modelled from the spec: `updateTask(sessionId, taskId, patch) -> Task` of
the Plan Store (§4.1), whose backend implementation is not in the repository
snapshot.  It fails with `NotFound` if the task does not exist, fails with
`InvalidTransition` if the patch requests a disallowed status change, and
otherwise applies the mutation, updating `updated_at` on both the affected
task and the parent plan. -/
def updateTask (p : Plan) (now : Nat) (taskId : String) (patch : TaskPatch) :
    Except StoreErr Plan :=
  match p.tasks.find? (fun u => decide (u.id = taskId)) with
  | none => Except.error StoreErr.notFound
  | some t =>
    if patchAllowed t patch then
      Except.ok
        { p with
          tasks := p.tasks.map (fun u => if u.id = taskId then applyPatch now patch u else u)
          updated_at := now }
    else
      Except.error StoreErr.invalidTransition

end SpecModel

namespace V1

/-- `AgentInfo["status"]` of the first hook variant (types/agent.ts). -/
inductive AgentStatus where
  | pending
  | in_progress
  | completed
  | failed
  | delegated
deriving DecidableEq

/-- `ChatMessage["role"]` (types/agent.ts). -/
inductive ChatRole where
  | user
  | assistant
  | system
  | system_notification
deriving DecidableEq

/-- `AgentInfo` of types/agent.ts (first variant); `delegation_params` is an
opaque key-value record, dates are `Nat` timestamps. -/
structure AgentInfo where
  agent_id : String
  parent_agent_id : Option String
  purpose : String
  context : String
  delegation_type : String
  status : AgentStatus
  delegation_params : Option (List (String × String))
  created_at : Nat
  updated_at : Nat
deriving DecidableEq

/-- `ChatMessage` of types/agent.ts (the `agent_proposal` payload is dropped:
none of the embedded operations reads or writes it). -/
structure ChatMessage where
  id : String
  role : ChatRole
  content : String
  timestamp : Nat
  agent_id : Option String
deriving DecidableEq

/-- `ChatSession` of types/agent.ts: `agent_id = none` is the main session. -/
structure ChatSession where
  agent_id : Option String
  agent_name : String
  messages : List ChatMessage
deriving DecidableEq

/-- The hook's state: the `agents` and `chatSessions` `useState` cells. -/
structure State where
  agents : List AgentInfo
  chatSessions : List ChatSession
deriving DecidableEq

/-- The system-notification message `createAgent` seeds the new session with. -/
def createMsg (now : Nat) (purpose newId : String) : ChatMessage :=
  { id := "msg_" ++ toString now
    role := ChatRole.system_notification
    content := "エージェント「" ++ purpose ++ "」のチャットセッションが作成されました。"
    timestamp := now
    agent_id := some newId }

/-- `createAgent` (useAgentManager.ts v1, lines 41–83): builds a new agent with
status `pending`, appends it to `agents`, and appends a fresh chat session for
it; returns the new agent.  `newId` stands for `generateAgentId()` and `now`
for `Date.now()`/`new Date()`. -/
def createAgent (st : State) (newId : String) (now : Nat)
    (purpose delegation_type context : String)
    (parent_agent_id : Option String)
    (delegation_params : Option (List (String × String))) : AgentInfo × State :=
  let newAgent : AgentInfo :=
    { agent_id := newId
      parent_agent_id := parent_agent_id
      purpose := purpose
      context := context
      delegation_type := delegation_type
      status := AgentStatus.pending
      delegation_params := delegation_params
      created_at := now
      updated_at := now }
  let newSession : ChatSession :=
    { agent_id := some newId
      agent_name := if purpose.length > 20 then purpose.take 20 ++ "..." else purpose
      messages := [createMsg now purpose newId] }
  (newAgent,
    { agents := st.agents ++ [newAgent]
      chatSessions := st.chatSessions ++ [newSession] })

/-- `updateAgentStatus` (useAgentManager.ts v1, lines 95–99): maps over the
agents, replacing the status and `updated_at` of the agent whose id matches;
every other agent (and an unmatched id's whole list) is left as is. -/
def updateAgentStatus (st : State) (now : Nat) (agent_id : String)
    (status : AgentStatus) : State :=
  { st with
    agents := st.agents.map (fun a =>
      if a.agent_id = agent_id then { a with status := status, updated_at := now } else a) }

/-- The system-notification message `executeAgent` appends on dispatch. -/
def execMsg (now : Nat) (agent_id : String) : ChatMessage :=
  { id := "msg_" ++ toString now
    role := ChatRole.system_notification
    content := "エージェントの実行を開始しました。"
    timestamp := now
    agent_id := some agent_id }

/-- `executeAgent` (useAgentManager.ts v1, lines 101–130): unconditionally sets
the status to `in_progress`, then — if the agent exists — appends an
execution-start notification to the agent's chat session. -/
def executeAgent (st : State) (now : Nat) (agent_id : String) : State :=
  let st1 := updateAgentStatus st now agent_id AgentStatus.in_progress
  match st.agents.find? (fun a => decide (a.agent_id = agent_id)) with
  | some _ =>
    { st1 with
      chatSessions := st1.chatSessions.map (fun s =>
        if s.agent_id = some agent_id then
          { s with messages := s.messages ++ [execMsg now agent_id] }
        else s) }
  | none => st1

/-- The system-notification message `completeAgent` appends. -/
def completeMsg (now : Nat) (agent_id : String) : ChatMessage :=
  { id := "msg_" ++ toString now
    role := ChatRole.system_notification
    content := "エージェントが完了しました。"
    timestamp := now
    agent_id := some agent_id }

/-- `completeAgent` (useAgentManager.ts v1, lines 132–160): unconditionally
sets the status to `completed`, then — if the agent exists — appends a
completion notification to the agent's chat session. -/
def completeAgent (st : State) (now : Nat) (agent_id : String) : State :=
  let st1 := updateAgentStatus st now agent_id AgentStatus.completed
  match st.agents.find? (fun a => decide (a.agent_id = agent_id)) with
  | some _ =>
    { st1 with
      chatSessions := st1.chatSessions.map (fun s =>
        if s.agent_id = some agent_id then
          { s with messages := s.messages ++ [completeMsg now agent_id] }
        else s) }
  | none => st1

end V1

namespace V2

/-- `AgentInfo` of the second `useAgentManager` variant: hierarchical agents
with a `level`, a data-unit `purpose`, a list of data-unit `context` entries,
an `execution_engine` tag, and string statuses ("todo", "doing", "waiting",
"needs_input", "completed"). -/
structure AgentInfo where
  agent_id : String
  parent_agent_id : Option String
  purpose : String
  context : List String
  delegation_type : String
  status : String
  execution_engine : String
  delegation_params : Option (List (String × String))
  created_at : Nat
  updated_at : Nat
  level : Nat
deriving DecidableEq

/-- The hook's state: the `agents` `useState` cell. -/
structure State where
  agents : List AgentInfo
deriving DecidableEq

/-- `createAgent` (useAgentManager.ts v2, lines 309–343).  The level
computation mirrors `if (parent_agent_id) { ... }` — JavaScript truthiness, so
both `null` and the empty string skip the block and leave `level = 0`; inside
the block, a found parent gives `parent.level + 1`, otherwise `1`.  The new
agent starts with status `"todo"` and is appended to the agent list. -/
def createAgent (st : State) (newId : String) (now : Nat)
    (purpose : String) (delegation_type : String) (context : List String)
    (execution_engine : String) (parent_agent_id : Option String)
    (delegation_params : Option (List (String × String))) : AgentInfo × State :=
  let level : Nat :=
    match parent_agent_id with
    | none => 0
    | some pid =>
      if pid = "" then 0
      else
        match st.agents.find? (fun a => decide (a.agent_id = pid)) with
        | some parentAgent => parentAgent.level + 1
        | none => 1
  let newAgent : AgentInfo :=
    { agent_id := newId
      parent_agent_id := parent_agent_id
      purpose := purpose
      context := context
      delegation_type := delegation_type
      status := "todo"
      execution_engine := execution_engine
      delegation_params := delegation_params
      created_at := now
      updated_at := now
      level := level }
  (newAgent, { agents := st.agents ++ [newAgent] })

/-- `updateAgentStatus` (useAgentManager.ts v2, lines 355–359): same shape as
the v1 hook — map over the agents, setting status and `updated_at` on the
matching id, no validation, no error reporting. -/
def updateAgentStatus (st : State) (now : Nat) (agent_id : String)
    (status : String) : State :=
  { st with
    agents := st.agents.map (fun a =>
      if a.agent_id = agent_id then { a with status := status, updated_at := now } else a) }

/-- `executeAgent` (useAgentManager.ts v2, lines 361–370): unconditionally sets
the status to `"doing"` (the `console.log` and the commented-out backend call
have no state effect). -/
def executeAgent (st : State) (now : Nat) (agent_id : String) : State :=
  updateAgentStatus st now agent_id "doing"

/-- `completeAgent` (useAgentManager.ts v2, lines 372–378): sets the status
back to `"todo"` ("Set back to todo for demo" in the source). -/
def completeAgent (st : State) (now : Nat) (agent_id : String) : State :=
  updateAgentStatus st now agent_id "todo"

end V2

namespace V3

/-- `AgentInfo` of the template-based `useAgentManager` variant (part_003):
like V2 but with a `template_id` instead of `delegation_type`/`execution_engine`. -/
structure AgentInfo where
  agent_id : String
  template_id : String
  parent_agent_id : Option String
  purpose : String
  context : List String
  status : String
  delegation_params : Option (List (String × String))
  created_at : Nat
  updated_at : Nat
  level : Nat
deriving DecidableEq

/-- The hook's state: the `agents` `useState` cell. -/
structure State where
  agents : List AgentInfo
deriving DecidableEq

/-- `createAgent` (part_003, lines 186–218): identical level logic to the V2
variant (`if (parent_agent_id)` truthiness, found parent ⇒ `level + 1`,
otherwise `1`), initial status `"todo"`, appended to the agent list. -/
def createAgent (st : State) (newId : String) (now : Nat)
    (purpose : String) (template_id : String) (context : List String)
    (parent_agent_id : Option String)
    (delegation_params : Option (List (String × String))) : AgentInfo × State :=
  let level : Nat :=
    match parent_agent_id with
    | none => 0
    | some pid =>
      if pid = "" then 0
      else
        match st.agents.find? (fun a => decide (a.agent_id = pid)) with
        | some parentAgent => parentAgent.level + 1
        | none => 1
  let newAgent : AgentInfo :=
    { agent_id := newId
      template_id := template_id
      parent_agent_id := parent_agent_id
      purpose := purpose
      context := context
      status := "todo"
      delegation_params := delegation_params
      created_at := now
      updated_at := now
      level := level }
  (newAgent, { agents := st.agents ++ [newAgent] })

end V3

namespace DataUnits

/-- `DataUnitConfig` (part_002): a data unit's value, display label and
category; `editable` is an optional flag. -/
structure DataUnitConfig where
  value : String
  label : String
  category : String
  editable : Option Bool
deriving DecidableEq

/-- `DEFAULT_DATA_UNITS` (part_002, lines 28–54): the predefined data units. -/
def DEFAULT_DATA_UNITS : List DataUnitConfig :=
  [ { value := "market_analysis_report", label := "市場分析レポート", category := "レポート・分析", editable := some true }
  , { value := "competitor_comparison_table", label := "競合比較表", category := "レポート・分析", editable := some true }
  , { value := "customer_segment_data", label := "顧客セグメントデータ", category := "レポート・分析", editable := some true }
  , { value := "pricing_strategy_document", label := "価格戦略書", category := "レポート・分析", editable := some true }
  , { value := "risk_assessment_report", label := "リスク評価レポート", category := "レポート・分析", editable := some true }
  , { value := "performance_metrics", label := "パフォーマンス指標", category := "レポート・分析", editable := some true }
  , { value := "technical_specifications", label := "技術仕様書", category := "技術文書", editable := some true }
  , { value := "feature_analysis_matrix", label := "機能分析マトリックス", category := "技術文書", editable := some true }
  , { value := "integration_requirements", label := "統合要件", category := "技術文書", editable := some true }
  , { value := "compliance_checklist", label := "コンプライアンスチェックリスト", category := "技術文書", editable := some true }
  , { value := "market_share_data", label := "市場シェアデータ", category := "データ・調査", editable := some true }
  , { value := "user_survey_results", label := "ユーザー調査結果", category := "データ・調査", editable := some true }
  , { value := "user_feedback_summary", label := "ユーザーフィードバック要約", category := "データ・調査", editable := some true }
  , { value := "financial_projections", label := "財務予測", category := "データ・調査", editable := some true }
  , { value := "training_materials", label := "研修資料", category := "研修・サポート", editable := some true }
  , { value := "business_requirements_document", label := "業務要件書", category := "ビジネス文書", editable := some true } ]

/-- The manager's mutable state: the `customDataUnits` list (the category list
and localStorage persistence play no role in the claims). -/
structure ManagerState where
  customDataUnits : List DataUnitConfig
deriving DecidableEq

/-- `DataUnitManager.getAllDataUnits` (part_002, lines 104–106):
`[...DEFAULT_DATA_UNITS, ...this.customDataUnits]`. -/
def getAllDataUnits (m : ManagerState) : List DataUnitConfig :=
  DEFAULT_DATA_UNITS ++ m.customDataUnits

/-- `DataUnitManager.deleteDataUnit` (part_002, lines 139–142): filters only
the custom data-unit list; the defaults are not touched. -/
def deleteDataUnit (m : ManagerState) (value : String) : ManagerState :=
  { m with customDataUnits := m.customDataUnits.filter (fun u => decide (u.value ≠ value)) }

end DataUnits

/-! Concrete inputs used to instantiate the theorems below. -/

/-- A completed task with no dependencies. -/
def wTaskA : SpecModel.Task :=
  { id := "A", agent_type := "web", description := "gather data", dependencies := []
    category := SpecModel.TaskCategory.actionable, status := SpecModel.TaskStatus.completed
    result := some "data", error := none, retry_pending := false, tags := []
    created_at := 0, updated_at := 1 }

/-- A permanently failed task (no pending retry), no dependencies. -/
def wTaskC : SpecModel.Task :=
  { id := "C", agent_type := "coder", description := "build", dependencies := []
    category := SpecModel.TaskCategory.actionable, status := SpecModel.TaskStatus.failed
    result := none, error := some "boom", retry_pending := false, tags := []
    created_at := 0, updated_at := 1 }

/-- A pending task depending on the completed task `A`. -/
def wTaskB : SpecModel.Task :=
  { id := "B", agent_type := "casual", description := "summarize", dependencies := ["A"]
    category := SpecModel.TaskCategory.info_reference, status := SpecModel.TaskStatus.pending
    result := none, error := none, retry_pending := false, tags := []
    created_at := 2, updated_at := 2 }

/-- A pending task depending on the failed task `C`. -/
def wTaskD : SpecModel.Task :=
  { id := "D", agent_type := "file", description := "archive", dependencies := ["C"]
    category := SpecModel.TaskCategory.actionable, status := SpecModel.TaskStatus.pending
    result := none, error := none, retry_pending := false, tags := []
    created_at := 2, updated_at := 2 }

/-- A small plan's task set exercising both resolver outcomes. -/
def wTasks : List SpecModel.Task := [wTaskA, wTaskC, wTaskB, wTaskD]

/-- A running task, input to a successful `updateTask` call. -/
def wTaskR : SpecModel.Task :=
  { id := "T", agent_type := "web", description := "fetch", dependencies := []
    category := SpecModel.TaskCategory.actionable, status := SpecModel.TaskStatus.running
    result := none, error := none, retry_pending := false, tags := []
    created_at := 0, updated_at := 0 }

/-- A plan holding just `wTaskR`. -/
def wPlan : SpecModel.Plan := { tasks := [wTaskR], created_at := 0, updated_at := 0 }

/-- A successful-completion patch for `wTaskR`. -/
def wPatch : SpecModel.TaskPatch :=
  { status := some SpecModel.TaskStatus.completed, result := some "ok", error := none }

/-- The plan `updateTask wPlan 5 "T" wPatch` produces. -/
def wPlanPatched : SpecModel.Plan :=
  { tasks := [SpecModel.applyPatch 5 wPatch wTaskR], created_at := 0, updated_at := 5 }

/-- A v1 agent with id `"a1"`. -/
def wAgent : V1.AgentInfo :=
  { agent_id := "a1", parent_agent_id := none, purpose := "analyse", context := "ctx"
    delegation_type := "web", status := V1.AgentStatus.pending, delegation_params := none
    created_at := 0, updated_at := 0 }

/-- A v1 chat session attached to agent `"a1"`. -/
def wSession : V1.ChatSession :=
  { agent_id := some "a1", agent_name := "analyse", messages := [] }

/-- A v2 agent with id `"a1"`. -/
def wAgentB : V2.AgentInfo :=
  { agent_id := "a1", parent_agent_id := none, purpose := "market_analysis_report"
    context := [], delegation_type := "包括的分析", status := "doing"
    execution_engine := "gemini-2.5-flash", delegation_params := none
    created_at := 0, updated_at := 0, level := 0 }

/-- A v2 agent with id `"P"` at hierarchy level 3, used as a parent. -/
def wParentB : V2.AgentInfo :=
  { wAgentB with agent_id := "P", level := 3 }

/-- A v3 agent with id `"P"` at hierarchy level 3, used as a parent. -/
def wParentC : V3.AgentInfo :=
  { agent_id := "P", template_id := "tpl", parent_agent_id := none
    purpose := "market_analysis_report", context := [], status := "todo"
    delegation_params := none, created_at := 0, updated_at := 0, level := 3 }

/-- The first predefined data unit. -/
def wUnit : DataUnits.DataUnitConfig :=
  { value := "market_analysis_report", label := "市場分析レポート"
    category := "レポート・分析", editable := some true }

/-! Helper lemmas shared by several of the claim theorems below. -/

/-- Mapping the v1 status update over a list sends a matching agent to its
updated copy. -/
theorem v1_update_mem (st : V1.State) (now : Nat) (id : String) (s : V1.AgentStatus)
    (a : V1.AgentInfo) (ha : a ∈ st.agents) (hid : a.agent_id = id) :
    { a with status := s, updated_at := now } ∈ (V1.updateAgentStatus st now id s).agents := by
  refine List.mem_map.mpr ⟨a, ha, ?_⟩
  simp [hid]

/-- Mapping the v2 status update over a list sends a matching agent to its
updated copy. -/
theorem v2_update_mem (st : V2.State) (now : Nat) (id : String) (s : String)
    (b : V2.AgentInfo) (hb : b ∈ st.agents) (hid : b.agent_id = id) :
    { b with status := s, updated_at := now } ∈ (V2.updateAgentStatus st now id s).agents := by
  refine List.mem_map.mpr ⟨b, hb, ?_⟩
  simp [hid]

/-- The v1 status update never changes the list of agent ids. -/
theorem v1_update_ids (st : V1.State) (now : Nat) (id : String) (s : V1.AgentStatus) :
    (V1.updateAgentStatus st now id s).agents.map (fun a => a.agent_id)
      = st.agents.map (fun a => a.agent_id) := by
  show (st.agents.map _).map _ = _
  rw [List.map_map]
  apply List.map_congr_left
  intro a _
  by_cases h : a.agent_id = id
  · simp [h]
  · simp [h]

/-- `executeAgent` leaves the agents component exactly as the underlying
status update does (the session branch only touches `chatSessions`). -/
theorem v1_execute_agents (st : V1.State) (now : Nat) (id : String) :
    (V1.executeAgent st now id).agents
      = (V1.updateAgentStatus st now id V1.AgentStatus.in_progress).agents := by
  unfold V1.executeAgent
  cases hf : st.agents.find? (fun a => decide (a.agent_id = id)) <;> simp [hf]

/-- `completeAgent` leaves the agents component exactly as the underlying
status update does. -/
theorem v1_complete_agents (st : V1.State) (now : Nat) (id : String) :
    (V1.completeAgent st now id).agents
      = (V1.updateAgentStatus st now id V1.AgentStatus.completed).agents := by
  unfold V1.completeAgent
  cases hf : st.agents.find? (fun a => decide (a.agent_id = id)) <;> simp [hf]

/-- When the agent exists, `executeAgent` appends the execution-start message
to every session attached to the agent's id. -/
theorem v1_execute_sessions (st : V1.State) (now : Nat) (id : String)
    (hf : (st.agents.find? (fun a => decide (a.agent_id = id))).isSome) :
    (V1.executeAgent st now id).chatSessions
      = st.chatSessions.map (fun s =>
          if s.agent_id = some id then
            { s with messages := s.messages ++ [V1.execMsg now id] }
          else s) := by
  unfold V1.executeAgent
  obtain ⟨a, ha⟩ := Option.isSome_iff_exists.mp hf
  simp only [ha]
  rfl

/-- Claim C10: a predefined default data unit can never be deleted — after
`deleteDataUnit` with its value, `getAllDataUnits()` still contains it, because
`deleteDataUnit` filters only the custom list and `getAllDataUnits` always
prepends `DEFAULT_DATA_UNITS`. -/
theorem default_data_units_undeletable (u : DataUnits.DataUnitConfig)
    (hu : u ∈ DataUnits.DEFAULT_DATA_UNITS) (m : DataUnits.ManagerState) :
    u ∈ DataUnits.getAllDataUnits (DataUnits.deleteDataUnit m u.value) := by
  unfold DataUnits.getAllDataUnits
  exact List.mem_append_left _ hu

/-- Witness for C10: deleting the first default unit's value still leaves that
unit in `getAllDataUnits`, here on an empty custom list. -/
theorem default_data_units_undeletable_witness :
    wUnit ∈ DataUnits.getAllDataUnits (DataUnits.deleteDataUnit ⟨[]⟩ wUnit.value) :=
  default_data_units_undeletable wUnit (by decide) ⟨[]⟩

/-- Claim C6: the task collection only grows — `createAgent` appends exactly
one new agent, and `updateAgentStatus`, `executeAgent` and `completeAgent`
preserve the full list of agent ids; no operation removes an agent. -/
theorem agent_collection_only_grows :
    (∀ (st : V1.State) (newId : String) (now : Nat) (purpose dt ctx : String)
        (par : Option String) (params : Option (List (String × String))),
      (V1.createAgent st newId now purpose dt ctx par params).2.agents
        = st.agents ++ [(V1.createAgent st newId now purpose dt ctx par params).1])
    ∧ (∀ (st : V1.State) (now : Nat) (id : String) (s : V1.AgentStatus),
      (V1.updateAgentStatus st now id s).agents.map (fun a => a.agent_id)
        = st.agents.map (fun a => a.agent_id))
    ∧ (∀ (st : V1.State) (now : Nat) (id : String),
      (V1.executeAgent st now id).agents.map (fun a => a.agent_id)
        = st.agents.map (fun a => a.agent_id))
    ∧ (∀ (st : V1.State) (now : Nat) (id : String),
      (V1.completeAgent st now id).agents.map (fun a => a.agent_id)
        = st.agents.map (fun a => a.agent_id)) := by
  refine ⟨fun _ _ _ _ _ _ _ _ => rfl, fun st now id s => v1_update_ids st now id s, ?_, ?_⟩
  · intro st now id
    rw [v1_execute_agents, v1_update_ids]
  · intro st now id
    rw [v1_complete_agents, v1_update_ids]

/-- Counterexample to claim C4 as stated: the v2 `createAgent` starts a new
agent in status `"todo"`, not `pending`. -/
theorem createAgent_initial_status_todo_not_pending :
    (V2.createAgent { agents := [] } "n1" 0 "market_analysis_report" "d" []
        "gemini-2.5-flash" none none).1.status = "todo"
    ∧ ("todo" : String) ≠ "pending" := by
  constructor
  · rfl
  · decide

/-- Claim C4 (amended): every newly created agent starts in that variant's
initial waiting status — `pending` for the v1 hook, `"todo"` for the v2 hook
and for the template-based variant. -/
theorem createAgent_initial_status :
    (∀ (st : V1.State) (newId : String) (now : Nat) (purpose dt ctx : String)
        (par : Option String) (params : Option (List (String × String))),
      (V1.createAgent st newId now purpose dt ctx par params).1.status
        = V1.AgentStatus.pending)
    ∧ (∀ (st : V2.State) (newId : String) (now : Nat) (purpose dt : String)
        (ctx : List String) (ee : String) (par : Option String)
        (params : Option (List (String × String))),
      (V2.createAgent st newId now purpose dt ctx ee par params).1.status = "todo")
    ∧ (∀ (st : V3.State) (newId : String) (now : Nat) (purpose tid : String)
        (ctx : List String) (par : Option String)
        (params : Option (List (String × String))),
      (V3.createAgent st newId now purpose tid ctx par params).1.status = "todo") :=
  ⟨fun _ _ _ _ _ _ _ _ => rfl, fun _ _ _ _ _ _ _ _ _ => rfl, fun _ _ _ _ _ _ _ _ => rfl⟩

/-- Counterexample to claim C2 as stated: requesting the disallowed transition
`completed → pending` does not fail with `InvalidTransition` — the v1
`updateAgentStatus` simply applies the new status. -/
theorem updateAgentStatus_disallowed_transition_applied :
    (V1.updateAgentStatus
        { agents := [{ wAgent with status := V1.AgentStatus.completed }], chatSessions := [] }
        5 "a1" V1.AgentStatus.pending).agents
      = [{ wAgent with status := V1.AgentStatus.pending, updated_at := 5 }]
    ∧ V1.AgentStatus.completed ≠ V1.AgentStatus.pending := by
  decide

/-- Claim C2 (amended): `updateAgentStatus` performs no transition validation
and has no failure result — in both hook variants it unconditionally applies
any requested status to the matching agent, stamping `updated_at`. -/
theorem updateAgentStatus_unvalidated
    (stA : V1.State) (nowA : Nat) (idA : String) (sA : V1.AgentStatus)
    (a : V1.AgentInfo) (haMem : a ∈ stA.agents) (haId : a.agent_id = idA)
    (stB : V2.State) (nowB : Nat) (idB sB : String)
    (b : V2.AgentInfo) (hbMem : b ∈ stB.agents) (hbId : b.agent_id = idB) :
    { a with status := sA, updated_at := nowA } ∈ (V1.updateAgentStatus stA nowA idA sA).agents
    ∧ { b with status := sB, updated_at := nowB } ∈ (V2.updateAgentStatus stB nowB idB sB).agents :=
  ⟨v1_update_mem stA nowA idA sA a haMem haId, v2_update_mem stB nowB idB sB b hbMem hbId⟩

/-- Witness for the amended C2 at a concrete state: a disallowed
`pending → delegated` request (v1) and an arbitrary string status (v2) are
both applied. -/
theorem updateAgentStatus_unvalidated_witness :
    { wAgent with status := V1.AgentStatus.delegated, updated_at := 7 }
      ∈ (V1.updateAgentStatus { agents := [wAgent], chatSessions := [wSession] }
          7 "a1" V1.AgentStatus.delegated).agents
    ∧ { wAgentB with status := "completed", updated_at := 7 }
      ∈ (V2.updateAgentStatus { agents := [wAgentB] } 7 "a1" "completed").agents :=
  updateAgentStatus_unvalidated
    { agents := [wAgent], chatSessions := [wSession] } 7 "a1" V1.AgentStatus.delegated
    wAgent (by decide) rfl
    { agents := [wAgentB] } 7 "a1" "completed" wAgentB (by decide) rfl

/-- Counterexample to claim C3 as stated: updating an unknown agent id is a
silent no-op — the state is returned entirely unchanged and no `NotFound`
error exists in the operation's type. -/
theorem updateAgentStatus_unknown_id_silent_noop :
    V1.updateAgentStatus { agents := [wAgent], chatSessions := [wSession] }
        5 "zzz" V1.AgentStatus.completed
      = { agents := [wAgent], chatSessions := [wSession] } := by
  decide

/-- Claim C3 (amended): an update addressed to an id carried by no stored
agent leaves the whole state unchanged; the operation is total and reports no
error. -/
theorem updateAgentStatus_unknown_id_noop (st : V1.State) (now : Nat) (id : String)
    (s : V1.AgentStatus) (h : ∀ a ∈ st.agents, a.agent_id ≠ id) :
    V1.updateAgentStatus st now id s = st := by
  have hmap : st.agents.map (fun a =>
      if a.agent_id = id then { a with status := s, updated_at := now } else a) = st.agents := by
    conv_rhs => rw [← List.map_id st.agents]
    apply List.map_congr_left
    intro a ha
    simp [h a ha]
  unfold V1.updateAgentStatus
  rw [hmap]

/-- Witness for the amended C3 at a concrete state. -/
theorem updateAgentStatus_unknown_id_noop_witness :
    V1.updateAgentStatus { agents := [wAgent], chatSessions := [wSession] }
        6 "ghost" V1.AgentStatus.failed
      = { agents := [wAgent], chatSessions := [wSession] } :=
  updateAgentStatus_unknown_id_noop
    { agents := [wAgent], chatSessions := [wSession] } 6 "ghost" V1.AgentStatus.failed
    (by decide)

/-- Counterexample to claim C5 as stated: the v2 `completeAgent` on a running
("doing") agent sets the status to `"todo"` ("Set back to todo for demo"),
not to `completed`. -/
theorem completeAgent_v2_sets_todo_not_completed :
    (V2.completeAgent { agents := [wAgentB] } 9 "a1").agents.map (fun a => a.status)
      = ["todo"]
    ∧ ("todo" : String) ≠ "completed" := by
  decide

/-- Claim C5 (amended): on completion the v1 hook sets the matching agent's
status to `completed` (unconditionally, whatever the prior status), while the
v2 hook sets it back to `"todo"` for demo purposes. -/
theorem completeAgent_result_status
    (stA : V1.State) (nowA : Nat) (idA : String) (a : V1.AgentInfo)
    (haMem : a ∈ stA.agents) (haId : a.agent_id = idA)
    (stB : V2.State) (nowB : Nat) (idB : String) (b : V2.AgentInfo)
    (hbMem : b ∈ stB.agents) (hbId : b.agent_id = idB) :
    { a with status := V1.AgentStatus.completed, updated_at := nowA }
      ∈ (V1.completeAgent stA nowA idA).agents
    ∧ { b with status := "todo", updated_at := nowB }
      ∈ (V2.completeAgent stB nowB idB).agents := by
  constructor
  · rw [v1_complete_agents]
    exact v1_update_mem stA nowA idA V1.AgentStatus.completed a haMem haId
  · exact v2_update_mem stB nowB idB "todo" b hbMem hbId

/-- Witness for the amended C5 at a concrete state. -/
theorem completeAgent_result_status_witness :
    { wAgent with status := V1.AgentStatus.completed, updated_at := 9 }
      ∈ (V1.completeAgent { agents := [wAgent], chatSessions := [wSession] } 9 "a1").agents
    ∧ { wAgentB with status := "todo", updated_at := 9 }
      ∈ (V2.completeAgent { agents := [wAgentB] } 9 "a1").agents :=
  completeAgent_result_status
    { agents := [wAgent], chatSessions := [wSession] } 9 "a1" wAgent (by decide) rfl
    { agents := [wAgentB] } 9 "a1" wAgentB (by decide) rfl

/-- Counterexample to claim C8 as stated: two `executeAgent` invocations for
the same id both perform the dispatch step — after the first call the agent is
`in_progress` (neither terminal nor pending), yet the second call dispatches
again, leaving two execution-start messages in the agent's session. -/
theorem executeAgent_double_dispatch :
    ((V1.executeAgent { agents := [wAgent], chatSessions := [wSession] } 1 "a1").agents.map
        (fun a => a.status) = [V1.AgentStatus.in_progress])
    ∧ ((V1.executeAgent
          (V1.executeAgent { agents := [wAgent], chatSessions := [wSession] } 1 "a1")
          2 "a1").chatSessions.map (fun s => s.messages.length) = [2])
    ∧ ((V1.executeAgent
          (V1.executeAgent { agents := [wAgent], chatSessions := [wSession] } 1 "a1")
          2 "a1").agents.map (fun a => a.status) = [V1.AgentStatus.in_progress]) := by
  decide

/-- Claim C8 (amended): the dispatch step of `executeAgent` is entirely
unguarded — whatever the current status of the matching agent (including
`in_progress`), the call sets it to `in_progress` and appends a dispatch
notification to the agent's session, so repeated invocations re-dispatch the
same task. -/
theorem executeAgent_unguarded_dispatch
    (st : V1.State) (now : Nat) (id : String) (a : V1.AgentInfo)
    (haMem : a ∈ st.agents) (haId : a.agent_id = id)
    (s : V1.ChatSession) (hsMem : s ∈ st.chatSessions) (hsId : s.agent_id = some id) :
    { a with status := V1.AgentStatus.in_progress, updated_at := now }
      ∈ (V1.executeAgent st now id).agents
    ∧ { s with messages := s.messages ++ [V1.execMsg now id] }
      ∈ (V1.executeAgent st now id).chatSessions := by
  have hf : (st.agents.find? (fun x => decide (x.agent_id = id))).isSome := by
    rw [List.find?_isSome]
    exact ⟨a, haMem, by simp [haId]⟩
  constructor
  · rw [v1_execute_agents]
    exact v1_update_mem st now id V1.AgentStatus.in_progress a haMem haId
  · rw [v1_execute_sessions st now id hf]
    refine List.mem_map.mpr ⟨s, hsMem, ?_⟩
    simp [hsId]

/-- Witness for the amended C8 at a concrete state: the dispatched agent is
already `in_progress`, and the dispatch still happens. -/
theorem executeAgent_unguarded_dispatch_witness :
    { { wAgent with status := V1.AgentStatus.in_progress } with
        status := V1.AgentStatus.in_progress, updated_at := 3 }
      ∈ (V1.executeAgent
          { agents := [{ wAgent with status := V1.AgentStatus.in_progress }]
            chatSessions := [wSession] } 3 "a1").agents
    ∧ { wSession with messages := wSession.messages ++ [V1.execMsg 3 "a1"] }
      ∈ (V1.executeAgent
          { agents := [{ wAgent with status := V1.AgentStatus.in_progress }]
            chatSessions := [wSession] } 3 "a1").chatSessions :=
  executeAgent_unguarded_dispatch
    { agents := [{ wAgent with status := V1.AgentStatus.in_progress }]
      chatSessions := [wSession] } 3 "a1"
    { wAgent with status := V1.AgentStatus.in_progress } (by decide) rfl
    wSession (by decide) rfl

/-- Counterexample to claim C9 as stated: an empty-string `parent_agent_id` is
non-null and names no existing agent, yet the created agent's level is 0, not
the claimed default of 1 — `if (parent_agent_id)` treats `""` as falsy. -/
theorem createAgent_empty_parent_level_zero :
    ((V2.createAgent { agents := [] } "n1" 0 "market_analysis_report" "d" []
        "gemini-2.5-flash" (some "") none).1.level = 0)
    ∧ ¬((V2.createAgent { agents := [] } "n1" 0 "market_analysis_report" "d" []
        "gemini-2.5-flash" (some "") none).1.level = 1) := by
  decide

/-- Claim C9 (amended): agent creation assigns the hierarchy level
deterministically from the parent reference, in both the v2 hook and the
template-based variant: a null — or, by JS falsiness, empty-string — parent
gives level 0; a non-empty parent id found in the current state gives that
parent's level plus 1; a non-empty parent id naming no agent gives level 1. -/
theorem createAgent_level_assignment
    (st : V2.State) (newId : String) (now : Nat) (purpose dt : String)
    (ctx : List String) (ee : String) (parent : Option String)
    (params : Option (List (String × String)))
    (st3 : V3.State) (newId3 : String) (now3 : Nat) (purpose3 tid : String)
    (ctx3 : List String) (params3 : Option (List (String × String))) :
    ((parent = none ∨ parent = some "") →
      (V2.createAgent st newId now purpose dt ctx ee parent params).1.level = 0
      ∧ (V3.createAgent st3 newId3 now3 purpose3 tid ctx3 parent params3).1.level = 0)
    ∧ (∀ pid, parent = some pid → pid ≠ "" →
      ((∀ p, st.agents.find? (fun x => decide (x.agent_id = pid)) = some p →
        (V2.createAgent st newId now purpose dt ctx ee parent params).1.level = p.level + 1)
      ∧ (st.agents.find? (fun x => decide (x.agent_id = pid)) = none →
        (V2.createAgent st newId now purpose dt ctx ee parent params).1.level = 1)
      ∧ (∀ p, st3.agents.find? (fun x => decide (x.agent_id = pid)) = some p →
        (V3.createAgent st3 newId3 now3 purpose3 tid ctx3 parent params3).1.level = p.level + 1)
      ∧ (st3.agents.find? (fun x => decide (x.agent_id = pid)) = none →
        (V3.createAgent st3 newId3 now3 purpose3 tid ctx3 parent params3).1.level = 1))) := by
  constructor
  · rintro (rfl | rfl)
    · exact ⟨rfl, rfl⟩
    · exact ⟨rfl, rfl⟩
  · rintro pid rfl hne
    refine ⟨?_, ?_, ?_, ?_⟩
    · intro p hp
      simp [V2.createAgent, hne, hp]
    · intro hp
      simp [V2.createAgent, hne, hp]
    · intro p hp
      simp [V3.createAgent, hne, hp]
    · intro hp
      simp [V3.createAgent, hne, hp]

/-- Witness for the amended C9 at concrete states: creating under the level-3
parent `"P"` yields level 4 in both variants. -/
theorem createAgent_level_assignment_witness :
    (V2.createAgent { agents := [wParentB] } "n1" 0 "purpose" "d" []
        "gemini-2.5-flash" (some "P") none).1.level = wParentB.level + 1
    ∧ (V3.createAgent { agents := [wParentC] } "n2" 0 "purpose" "tpl" []
        (some "P") none).1.level = wParentC.level + 1 :=
  ⟨((createAgent_level_assignment { agents := [wParentB] } "n1" 0 "purpose" "d" []
      "gemini-2.5-flash" (some "P") none { agents := [wParentC] } "n2" 0 "purpose" "tpl" []
      none).2 "P" rfl (by decide)).1 wParentB (by decide),
   ((createAgent_level_assignment { agents := [wParentB] } "n1" 0 "purpose" "d" []
      "gemini-2.5-flash" (some "P") none { agents := [wParentC] } "n2" 0 "purpose" "tpl" []
      none).2 "P" rfl (by decide)).2.2.1 wParentC (by decide)⟩

/-- Unfolding the invariant `completedClosedB`: each completed task has all its
dependencies completed. -/
theorem completedClosedB_spec (ts : List SpecModel.Task)
    (h : SpecModel.completedClosedB ts = true) :
    ∀ u ∈ ts, u.status = SpecModel.TaskStatus.completed →
      SpecModel.allDepsCompleted ts u = true := by
  intro u hu hc
  have h2 := List.all_eq_true.mp h u hu
  simpa [hc] using h2

/-- On a plan satisfying the completed-closure invariant, no failed task is
reachable through the dependencies of a completed task. -/
theorem completed_no_transFailed (ts : List SpecModel.Task)
    (hcc : SpecModel.completedClosedB ts = true) :
    ∀ n, ∀ u ∈ ts, u.status = SpecModel.TaskStatus.completed →
      SpecModel.transFailedDep ts n u = false := by
  intro n
  induction n with
  | zero => intro u _ _; rfl
  | succ n ih =>
    intro u hu hcu
    have hall := completedClosedB_spec ts hcc u hu hcu
    simp only [SpecModel.transFailedDep]
    rw [List.any_eq_false]
    intro d hd hpd
    have hpd2 : (match SpecModel.findTask ts d with
        | some w => SpecModel.failedNoRetry w || SpecModel.transFailedDep ts n w
        | none => false) = true := hpd
    have hdep := List.all_eq_true.mp hall d hd
    unfold SpecModel.depCompleted at hdep
    cases hw : SpecModel.findTask ts d with
    | none => rw [hw] at hdep; exact absurd hdep (by simp)
    | some w =>
      rw [hw] at hdep
      have hwc : w.status = SpecModel.TaskStatus.completed := of_decide_eq_true hdep
      have hwmem : w ∈ ts := List.mem_of_find?_eq_some hw
      simp only [hw] at hpd2
      rw [Bool.or_eq_true] at hpd2
      rcases hpd2 with hcase | hcase
      · simp [SpecModel.failedNoRetry, hwc] at hcase
      · rw [ih w hwmem hwc] at hcase
        exact absurd hcase (by simp)

/-- Disjointness of the resolver's two outcomes on invariant-respecting plans:
a pending task whose direct dependencies are all completed has no transitively
failed dependency. -/
theorem allCompleted_no_transFailed (ts : List SpecModel.Task)
    (hcc : SpecModel.completedClosedB ts = true) (t : SpecModel.Task)
    (hall : SpecModel.allDepsCompleted ts t = true) :
    ∀ n, SpecModel.transFailedDep ts n t = false := by
  intro n
  cases n with
  | zero => rfl
  | succ n =>
    simp only [SpecModel.transFailedDep]
    rw [List.any_eq_false]
    intro d hd hpd
    have hpd2 : (match SpecModel.findTask ts d with
        | some w => SpecModel.failedNoRetry w || SpecModel.transFailedDep ts n w
        | none => false) = true := hpd
    have hdep := List.all_eq_true.mp hall d hd
    unfold SpecModel.depCompleted at hdep
    cases hw : SpecModel.findTask ts d with
    | none => rw [hw] at hdep; exact absurd hdep (by simp)
    | some w =>
      rw [hw] at hdep
      have hwc : w.status = SpecModel.TaskStatus.completed := of_decide_eq_true hdep
      have hwmem : w ∈ ts := List.mem_of_find?_eq_some hw
      simp only [hw] at hpd2
      rw [Bool.or_eq_true] at hpd2
      rcases hpd2 with hcase | hcase
      · simp [SpecModel.failedNoRetry, hwc] at hcase
      · rw [completed_no_transFailed ts hcc n w hwmem hwc] at hcase
        exact absurd hcase (by simp)

/-- Claim C1: on a plan whose completed tasks have completed dependencies, one
pass of the Dependency Resolver maps each pending task through `resolveTask`,
marking it `ready` if and only if every id in its dependencies has status
`completed`, and `blocked` if and only if at least one transitive dependency
is `failed` with no pending retry. -/
theorem resolver_marks_ready_and_blocked
    (ts : List SpecModel.Task) (i : Nat) (t : SpecModel.Task)
    (hget : ts[i]? = some t) (hp : t.status = SpecModel.TaskStatus.pending)
    (hcc : SpecModel.completedClosedB ts = true) :
    (SpecModel.resolvePass ts)[i]? = some (SpecModel.resolveTask ts t)
    ∧ ((SpecModel.resolveTask ts t).status = SpecModel.TaskStatus.ready
        ↔ SpecModel.allDepsCompleted ts t = true)
    ∧ ((SpecModel.resolveTask ts t).status = SpecModel.TaskStatus.blocked
        ↔ SpecModel.transFailedDep ts ts.length t = true) := by
  refine ⟨?_, ?_, ?_⟩
  · unfold SpecModel.resolvePass
    rw [List.getElem?_map, hget]
    rfl
  · unfold SpecModel.resolveTask
    rw [if_pos hp]
    by_cases hall : SpecModel.allDepsCompleted ts t = true
    · rw [if_pos hall]
      simp [hall]
    · rw [if_neg hall]
      by_cases htf : SpecModel.transFailedDep ts ts.length t = true
      · rw [if_pos htf]
        simp [hall]
      · rw [if_neg htf]
        simp [hp, hall]
  · unfold SpecModel.resolveTask
    rw [if_pos hp]
    by_cases hall : SpecModel.allDepsCompleted ts t = true
    · rw [if_pos hall]
      have hnf := allCompleted_no_transFailed ts hcc t hall ts.length
      simp [hnf]
    · rw [if_neg hall]
      by_cases htf : SpecModel.transFailedDep ts ts.length t = true
      · rw [if_pos htf]
        simp [htf]
      · rw [if_neg htf]
        simp [hp, htf]

/-- Witness for C1 on a concrete four-task plan (completed `A`, failed `C`,
pending `B` depending on `A`, pending `D` depending on `C`), instantiated at
the pending task `B`. -/
theorem resolver_marks_ready_and_blocked_witness :
    (SpecModel.resolvePass wTasks)[2]? = some (SpecModel.resolveTask wTasks wTaskB)
    ∧ ((SpecModel.resolveTask wTasks wTaskB).status = SpecModel.TaskStatus.ready
        ↔ SpecModel.allDepsCompleted wTasks wTaskB = true)
    ∧ ((SpecModel.resolveTask wTasks wTaskB).status = SpecModel.TaskStatus.blocked
        ↔ SpecModel.transFailedDep wTasks wTasks.length wTaskB = true) :=
  resolver_marks_ready_and_blocked wTasks 2 wTaskB (by decide) (by decide) (by decide)

/-- Claim C7: a successful `updateTask` call stamps `updated_at = now` on both
the parent plan and the affected task (to which it applies the patch), and
carries every other task over entirely unchanged (spec-modelled Plan Store). -/
theorem updateTask_timestamps_and_frame
    (p : SpecModel.Plan) (now : Nat) (taskId : String)
    (patch : SpecModel.TaskPatch) (q : SpecModel.Plan)
    (hok : SpecModel.updateTask p now taskId patch = Except.ok q) :
    q.updated_at = now
    ∧ (∀ u ∈ p.tasks, u.id = taskId →
        SpecModel.applyPatch now patch u ∈ q.tasks
        ∧ (SpecModel.applyPatch now patch u).updated_at = now)
    ∧ (∀ u ∈ p.tasks, u.id ≠ taskId → u ∈ q.tasks) := by
  unfold SpecModel.updateTask at hok
  cases hf : p.tasks.find? (fun u => decide (u.id = taskId)) with
  | none =>
    simp only [hf] at hok
    exact absurd hok (by simp)
  | some t =>
    simp only [hf] at hok
    by_cases hall : SpecModel.patchAllowed t patch = true
    · rw [if_pos hall] at hok
      have hq : q = { p with
          tasks := p.tasks.map (fun u =>
            if u.id = taskId then SpecModel.applyPatch now patch u else u)
          updated_at := now } := by
        injection hok with h
        exact h.symm
      subst hq
      refine ⟨rfl, ?_, ?_⟩
      · intro u hu huid
        refine ⟨?_, rfl⟩
        refine List.mem_map.mpr ⟨u, hu, ?_⟩
        simp [huid]
      · intro u hu huid
        refine List.mem_map.mpr ⟨u, hu, ?_⟩
        simp [huid]
    · rw [if_neg hall] at hok
      exact absurd hok (by simp)

/-- Witness for C7: completing the running task `T` of a one-task plan stamps
both timestamps and keeps the patched task. -/
theorem updateTask_timestamps_and_frame_witness :
    wPlanPatched.updated_at = 5
    ∧ SpecModel.applyPatch 5 wPatch wTaskR ∈ wPlanPatched.tasks
    ∧ (SpecModel.applyPatch 5 wPatch wTaskR).updated_at = 5
    ∧ wTaskR ∈ wPlan.tasks :=
  have h := updateTask_timestamps_and_frame wPlan 5 "T" wPatch wPlanPatched (by rfl)
  ⟨h.1, (h.2.1 wTaskR (by decide) rfl).1, (h.2.1 wTaskR (by decide) rfl).2, by decide⟩
